import Mathlib

/-!
Shallow embedding of shapely/geometry/base.py: the handle-management and
dispatch layer over the GEOS engine.  Raw engine references are modelled as
`Option Nat` (`none` is the null pointer), Python exceptions as the `PyErr`
inductive, and the external engine (`lgeos` plus the backend operation
table's primitive calls) as an abstract `GEOSEngine` structure, so every
theorem quantifies over all engine behaviours unless it names a concrete
test engine.
-/

namespace Shapely

/-- Python exception values raised by the code under study, carrying their
message strings. -/
inductive PyErr where
  | valueError (msg : String)
  | indexError (msg : String)
  | notImplementedError (msg : String)
deriving DecidableEq, Repr

/-- Error raised by the `exceptNull` decorating guard: the spec taxonomy's
NullGeometryError. -/
def NullGeometryError : PyErr :=
  .valueError "Null geometry supports no operations"

/-- Membership in the spec taxonomy's InvalidGeometryError class: the two
ValueErrors raised by `geometry_type_name` and `geom_factory` on null
input. -/
def PyErr.isInvalidGeometryError : PyErr → Bool
  | .valueError "Null geometry has no type" => true
  | .valueError "No Shapely geometry can be created from null value" => true
  | _ => false

/-- The fixed 8-entry type table from base.py. -/
def GEOMETRY_TYPES : List String :=
  ["Point", "LineString", "LinearRing", "Polygon",
   "MultiPoint", "MultiLineString", "MultiPolygon", "GeometryCollection"]

/-- Python list indexing `xs[i]`: negative indices wrap around by the list
length; a resolved index outside the list raises IndexError. -/
def pyListGet (xs : List String) (i : Int) : Except PyErr String :=
  let j : Int := if i < 0 then i + xs.length else i
  if 0 ≤ j ∧ j < (xs.length : Int) then .ok (xs.getD j.toNat "")
  else .error (.indexError "list index out of range")

/-- Abstract model of the external GEOS engine (`lgeos`) together with the
primitive calls behind the backend operation table.  Raw references are
`Nat` identifiers; `Option Nat` results use `none` for a NULL return. -/
structure GEOSEngine where
  geomTypeId : Nat → Int
  getGeometryN : Option Nat → Int → Option Nat
  getNumGeometries : Option Nat → Nat
  areaOp : Nat → ℚ
  lengthOp : Nat → ℚ
  bufferOp : Nat → ℚ → Nat → Option Nat
  unionOp : Nat → Option Nat → Option Nat
  containsOp : Nat → Option Nat → Int
  equalsExactOp : Nat → Option Nat → ℚ → Int

/-- base.py `geometry_type_name`: rejects a null handle, otherwise indexes
the fixed table by the engine-reported integer tag (Python list
indexing). -/
def geometry_type_name (lgeos : GEOSEngine) (g : Option Nat) :
    Except PyErr String :=
  match g with
  | none => .error (.valueError "Null geometry has no type")
  | some r => pyListGet GEOMETRY_TYPES (lgeos.geomTypeId r)

/-- State of a `BaseGeometry` wrapper: the cached raw reference `__geom__`,
the parent back-reference `__p__` (modelled by the parent's raw id), the
dimensionality `_ndim`, and the `_owned` aliasing flag. -/
structure BaseGeometry where
  geom : Option Nat
  parent : Option Nat
  ndim : Option Nat
  owned : Bool
deriving DecidableEq, Repr

/-- A freshly constructed `BaseGeometry()`: all attributes at their class
defaults, `__geom__` set to None by `__init__`. -/
def BaseGeometry.blank : BaseGeometry :=
  { geom := none, parent := none, ndim := none, owned := false }

/-- base.py `geom_factory`: rejects a null raw reference, resolves the type
name (which may itself fail), then installs the reference with the default
(owning) flag, dimensionality 2 and the given parent. -/
def geom_factory (lgeos : GEOSEngine) (g : Option Nat) (parent : Option Nat) :
    Except PyErr BaseGeometry :=
  match g with
  | none => .error (.valueError "No Shapely geometry can be created from null value")
  | some r =>
    match geometry_type_name lgeos (some r) with
    | .error e => .error e
    | .ok _ =>
      .ok { geom := some r, parent := parent, ndim := some 2, owned := false }

/-- base.py `BaseGeometry.__del__`: destroys the raw reference iff it is
non-null and not owned by another, then clears `__geom__` and `__p__`.
Returns the post-state and the list of references released to the
engine. -/
def BaseGeometry.del (g : BaseGeometry) : BaseGeometry × List Nat :=
  let released :=
    match g.geom with
    | some r => if g.owned then [] else [r]
    | none => []
  ({ g with geom := none, parent := none }, released)

/-- base.py `exceptNull` decorator: raises before delegating when the
receiver's `_geom` is null. -/
def exceptNull {α : Type} (func : BaseGeometry → Except PyErr α)
    (g : BaseGeometry) : Except PyErr α :=
  if g.geom = none then .error (.valueError "Null geometry supports no operations")
  else func g

/-- base.py `BaseGeometry.geometryType`, decorated with `exceptNull`. -/
def BaseGeometry.geometryType (lgeos : GEOSEngine) : BaseGeometry → Except PyErr String :=
  exceptNull (fun g => geometry_type_name lgeos g.geom)

/-- Modelled from the spec: the Operation Table (shapely/impl.py
DefaultImplementation) is not under src/.  Per spec sections 4.4 and 6, a
table entry applied to a receiver whose handle is null/absent fails with
NullGeometryError; otherwise it invokes the backend primitive.  Entry for
key area. -/
def impArea (lgeos : GEOSEngine) (this : BaseGeometry) : Except PyErr ℚ :=
  match this.geom with
  | none => .error NullGeometryError
  | some r => .ok (lgeos.areaOp r)

/-- Modelled from the spec: Operation Table entry for key length (see
`impArea`). -/
def impLength (lgeos : GEOSEngine) (this : BaseGeometry) : Except PyErr ℚ :=
  match this.geom with
  | none => .error NullGeometryError
  | some r => .ok (lgeos.lengthOp r)

/-- Modelled from the spec: Operation Table entry for key buffer (see
`impArea`); returns the raw engine result, which may be NULL. -/
def impBuffer (lgeos : GEOSEngine) (this : BaseGeometry) (distance : ℚ)
    (quadsegs : Nat) : Except PyErr (Option Nat) :=
  match this.geom with
  | none => .error NullGeometryError
  | some r => .ok (lgeos.bufferOp r distance quadsegs)

/-- Modelled from the spec: Operation Table entry for key union (see
`impArea`). -/
def impUnion (lgeos : GEOSEngine) (this other : BaseGeometry) :
    Except PyErr (Option Nat) :=
  match this.geom with
  | none => .error NullGeometryError
  | some r => .ok (lgeos.unionOp r other.geom)

/-- Modelled from the spec: Operation Table entry for key contains (see
`impArea`); the backend returns an integer tri-state. -/
def impContains (lgeos : GEOSEngine) (this other : BaseGeometry) :
    Except PyErr Int :=
  match this.geom with
  | none => .error NullGeometryError
  | some r => .ok (lgeos.containsOp r other.geom)

/-- Modelled from the spec: Operation Table entry for key equals_exact
(see `impArea`). -/
def impEqualsExact (lgeos : GEOSEngine) (this other : BaseGeometry)
    (tolerance : ℚ) : Except PyErr Int :=
  match this.geom with
  | none => .error NullGeometryError
  | some r => .ok (lgeos.equalsExactOp r other.geom tolerance)

/-- base.py `BaseGeometry.area` property: a bare delegation to the
Operation Table, with no guard in this layer. -/
def BaseGeometry.area (lgeos : GEOSEngine) (g : BaseGeometry) : Except PyErr ℚ :=
  impArea lgeos g

/-- base.py `BaseGeometry.length` property: a bare delegation to the
Operation Table. -/
def BaseGeometry.length (lgeos : GEOSEngine) (g : BaseGeometry) : Except PyErr ℚ :=
  impLength lgeos g

/-- base.py `BaseGeometry.buffer`: delegates to the Operation Table and
routes the raw result through `geom_factory`. -/
def BaseGeometry.buffer (lgeos : GEOSEngine) (g : BaseGeometry) (distance : ℚ)
    (quadsegs : Nat) : Except PyErr BaseGeometry :=
  match impBuffer lgeos g distance quadsegs with
  | .error e => .error e
  | .ok r => geom_factory lgeos r none

/-- base.py `BaseGeometry.union`: delegates to the Operation Table and
routes the raw result through `geom_factory`. -/
def BaseGeometry.union (lgeos : GEOSEngine) (g other : BaseGeometry) :
    Except PyErr BaseGeometry :=
  match impUnion lgeos g other with
  | .error e => .error e
  | .ok r => geom_factory lgeos r none

/-- base.py `BaseGeometry.contains`: delegates to the Operation Table and
coerces the result with `bool(...)`. -/
def BaseGeometry.contains (lgeos : GEOSEngine) (g other : BaseGeometry) :
    Except PyErr Bool :=
  match impContains lgeos g other with
  | .error e => .error e
  | .ok v => .ok (v ≠ 0)

/-- base.py `BaseGeometry.equals_exact`: delegates to the Operation Table
with an explicit tolerance and coerces the result with `bool(...)`. -/
def BaseGeometry.equals_exact (lgeos : GEOSEngine) (g other : BaseGeometry)
    (tolerance : ℚ) : Except PyErr Bool :=
  match impEqualsExact lgeos g other tolerance with
  | .error e => .error e
  | .ok v => .ok (v ≠ 0)

/-- base.py `BaseGeometry.almost_equals`: calls `equals_exact` with
tolerance `0.5 * 10 ** (-decimal)`. -/
def BaseGeometry.almost_equals (lgeos : GEOSEngine) (g other : BaseGeometry)
    (decimal : ℤ) : Except PyErr Bool :=
  BaseGeometry.equals_exact lgeos g other ((1 / 2 : ℚ) * (10 : ℚ) ^ (-decimal))

/-- base.py `BaseMultiPartGeometry.ctypes` override: unconditionally
raises. -/
def BaseMultiPartGeometry.ctypes (_g : BaseGeometry) : Except PyErr Unit :=
  .error (.notImplementedError "Multi-part geometries have no ctypes representations")

/-- base.py `BaseMultiPartGeometry.__array_interface__` override:
unconditionally raises. -/
def BaseMultiPartGeometry.array_interface (_g : BaseGeometry) : Except PyErr Unit :=
  .error (.notImplementedError "Multi-part geometries do not themselves provide the array interface")

/-- base.py `BaseMultiPartGeometry._get_coords` override: unconditionally
raises. -/
def BaseMultiPartGeometry.get_coords (_g : BaseGeometry) : Except PyErr Unit :=
  .error (.notImplementedError "Sub-geometries may have coordinate sequences, but collections do not")

/-- base.py `BaseMultiPartGeometry._set_coords` override: unconditionally
raises. -/
def BaseMultiPartGeometry.set_coords (_g : BaseGeometry) (_ob : Unit) : Except PyErr Unit :=
  .error (.notImplementedError "Sub-geometries may have coordinate sequences, but collections do not")

/-- base.py `BaseMultiPartGeometry.coords` property override:
unconditionally raises. -/
def BaseMultiPartGeometry.coords (_g : BaseGeometry) : Except PyErr Unit :=
  .error (.notImplementedError "Multi-part geometries do not provide a coordinate sequence")

/-- State of a `GeometrySequence`: the parent wrapper `__p__` and the
cached `_geom` / `_ndim` copied from it by `_update`.  The homogeneous
element factory `_factory` constructs a blank instance of the declared
element type, which the model represents by `BaseGeometry.blank`. -/
structure GeometrySequence where
  parent : BaseGeometry
  geomCache : Option Nat
  ndimCache : Option Nat
deriving DecidableEq, Repr

/-- base.py `GeometrySequence._update`: re-synchronizes the cached handle
and dimensionality from the parent wrapper. -/
def GeometrySequence.update (s : GeometrySequence) : GeometrySequence :=
  { s with geomCache := s.parent.geom, ndimCache := s.parent.ndim }

/-- base.py `GeometrySequence._get_geom_item`: builds a blank element
instance, marks it owned-by-another, and installs the engine's child
reference at index `i` (which is NULL when `i` is out of the engine's
range). -/
def GeometrySequence.getGeomItem (lgeos : GEOSEngine) (s : GeometrySequence)
    (i : Int) : BaseGeometry :=
  { BaseGeometry.blank with owned := true, geom := lgeos.getGeometryN s.geomCache i }

/-- base.py `GeometrySequence.__len__`: re-synchronizes, then reports the
engine's child count; returns the updated sequence state alongside. -/
def GeometrySequence.len (lgeos : GEOSEngine) (s : GeometrySequence) :
    GeometrySequence × Nat :=
  let s := s.update
  (s, lgeos.getNumGeometries s.geomCache)

/-- base.py `GeometrySequence.__getitem__`: re-synchronizes, bounds-checks
`i` against the child count with Python wraparound, computes the resolved
index `ii`, but passes the raw `i` to `_get_geom_item` (as the source
does). -/
def GeometrySequence.getitem (lgeos : GEOSEngine) (s : GeometrySequence)
    (i : Int) : GeometrySequence × Except PyErr BaseGeometry :=
  let s := s.update
  let (s, n) := s.len lgeos
  let M : Int := n
  if i + M < 0 ∨ i ≥ M then (s, .error (.indexError "index out of range"))
  else
    let ii := if i < 0 then M + i else i
    let _ := ii
    (s, .ok (s.getGeomItem lgeos i))

/-- base.py `HeterogeneousGeometrySequence._get_geom_item`: retrieves the
child reference, routes it through `geom_factory` (so a NULL child is
rejected), then marks the wrapper owned-by-another. -/
def HeterogeneousGeometrySequence.getGeomItem (lgeos : GEOSEngine)
    (s : GeometrySequence) (i : Int) : Except PyErr BaseGeometry :=
  match geom_factory lgeos (lgeos.getGeometryN s.geomCache i) none with
  | .error e => .error e
  | .ok g => .ok { g with owned := true }

/-- Membership in the spec taxonomy's UnsupportedOperationError class: the
NotImplementedErrors raised by the multi-part overrides. -/
def PyErr.isUnsupportedOperationError : PyErr → Bool
  | .notImplementedError _ => true
  | _ => false

/-- A concrete engine for evaluation: reference 7 is a multi-part geometry
with two children 10 and 11, every reference reports type tag 0
(Point). -/
def testEngine : GEOSEngine where
  geomTypeId := fun _ => 0
  getGeometryN := fun g i =>
    match g with
    | some 7 => if i = 0 then some 10 else if i = 1 then some 11 else none
    | _ => none
  getNumGeometries := fun g => match g with | some 7 => 2 | _ => 0
  areaOp := fun _ => 0
  lengthOp := fun _ => 0
  bufferOp := fun _ _ _ => none
  unionOp := fun _ _ => none
  containsOp := fun _ _ => 0
  equalsExactOp := fun _ _ _ => 1

/-- A concrete engine whose type-tag query reports -1 (the GEOS error
sentinel) for every reference. -/
def negTagEngine : GEOSEngine where
  geomTypeId := fun _ => -1
  getGeometryN := fun _ _ => none
  getNumGeometries := fun _ => 0
  areaOp := fun _ => 0
  lengthOp := fun _ => 0
  bufferOp := fun _ _ _ => none
  unionOp := fun _ _ => none
  containsOp := fun _ _ => 0
  equalsExactOp := fun _ _ _ => 1

/-- A concrete multi-part parent wrapper holding reference 7. -/
def testParent : BaseGeometry :=
  { geom := some 7, parent := none, ndim := some 2, owned := false }

/-- A concrete part sequence over `testParent`, already synchronized. -/
def testSeq : GeometrySequence :=
  { parent := testParent, geomCache := some 7, ndimCache := some 2 }

/-- C5: destruction releases the native reference exactly once and only
when the wrapper is the owner (`_owned = false`) and the reference is
non-null; the destructor clears the reference and the parent pointer, so a
second destructor run releases nothing, and a non-owning or null-handled
wrapper's destruction releases nothing. -/
theorem del_releases_exactly_once (g : BaseGeometry) :
    ((g.del).1).geom = none ∧
    ((g.del).1).parent = none ∧
    (((g.del).1).del).2 = [] ∧
    (∀ r : Nat, g.geom = some r → g.owned = false → (g.del).2 = [r]) ∧
    (g.owned = true → (g.del).2 = []) ∧
    (g.geom = none → (g.del).2 = []) := by
  refine ⟨rfl, rfl, rfl, ?_, ?_, ?_⟩
  · intro r hr ho
    simp [BaseGeometry.del, hr, ho]
  · intro ho
    cases hg : g.geom <;> simp [BaseGeometry.del, hg, ho]
  · intro hg
    simp [BaseGeometry.del, hg]

/-- C5 witness: destroying the owning wrapper around reference 7 releases
exactly [7]. -/
theorem del_releases_exactly_once_witness : (testParent.del).2 = [7] :=
  (del_releases_exactly_once testParent).2.2.2.1 7 rfl rfl

/-- C7: on a null/absent raw input, geometry_type_name and geom_factory
both fail with their InvalidGeometryError-class ValueError, so the factory
never produces a wrapper from a null engine result. -/
theorem null_input_invalid_geometry (lgeos : GEOSEngine) (p : Option Nat) :
    geometry_type_name lgeos none =
      .error (.valueError "Null geometry has no type") ∧
    (PyErr.valueError "Null geometry has no type").isInvalidGeometryError = true ∧
    geom_factory lgeos none p =
      .error (.valueError "No Shapely geometry can be created from null value") ∧
    (PyErr.valueError "No Shapely geometry can be created from null value").isInvalidGeometryError = true :=
  ⟨rfl, rfl, rfl, rfl⟩

/-- C8: every multi-part override of ctypes/array-protocol access and of
coordinate read/write fails with an UnsupportedOperationError-class
NotImplementedError on every wrapper, regardless of handle state. -/
theorem multipart_unsupported_ops (g : BaseGeometry) (ob : Unit) :
    BaseMultiPartGeometry.ctypes g =
      .error (.notImplementedError "Multi-part geometries have no ctypes representations") ∧
    BaseMultiPartGeometry.array_interface g =
      .error (.notImplementedError "Multi-part geometries do not themselves provide the array interface") ∧
    BaseMultiPartGeometry.get_coords g =
      .error (.notImplementedError "Sub-geometries may have coordinate sequences, but collections do not") ∧
    BaseMultiPartGeometry.set_coords g ob =
      .error (.notImplementedError "Sub-geometries may have coordinate sequences, but collections do not") ∧
    BaseMultiPartGeometry.coords g =
      .error (.notImplementedError "Multi-part geometries do not provide a coordinate sequence") ∧
    (∀ msg : String, (PyErr.notImplementedError msg).isUnsupportedOperationError = true) :=
  ⟨rfl, rfl, rfl, rfl, rfl, fun _ => rfl⟩

/-- C9: almost_equals g h decimal returns exactly equals_exact g h at
tolerance (1/2) * 10 ^ (-decimal), and at the default decimal = 6 it
coincides with equals_exact at tolerance 0.5e-6 = 5 / 10 ^ 7. -/
theorem almost_equals_is_equals_exact (lgeos : GEOSEngine)
    (g h : BaseGeometry) (decimal : ℤ) :
    BaseGeometry.almost_equals lgeos g h decimal =
      BaseGeometry.equals_exact lgeos g h ((1 / 2 : ℚ) * (10 : ℚ) ^ (-decimal)) ∧
    BaseGeometry.almost_equals lgeos g h 6 =
      BaseGeometry.equals_exact lgeos g h ((5 : ℚ) / 10 ^ 7) := by
  constructor
  · rfl
  · have ht : ((1 / 2 : ℚ) * (10 : ℚ) ^ (-(6 : ℤ))) = (5 : ℚ) / 10 ^ 7 := by
      norm_num
    rw [BaseGeometry.almost_equals, ht]

/-- C1: every child wrapper produced by a part sequence — homogeneous or
heterogeneous — is marked owned-by-another, so destroying it never
releases any engine storage and the parent's storage stays valid. -/
theorem childWrapper_non_owning (lgeos : GEOSEngine) (s : GeometrySequence)
    (i : Int) :
    (s.getGeomItem lgeos i).owned = true ∧
    ((s.getGeomItem lgeos i).del).2 = [] ∧
    (∀ g : BaseGeometry,
      HeterogeneousGeometrySequence.getGeomItem lgeos s i = .ok g →
      g.owned = true ∧ (g.del).2 = []) := by
  refine ⟨rfl, ?_, ?_⟩
  · cases hc : lgeos.getGeometryN s.geomCache i <;>
      simp [GeometrySequence.getGeomItem, BaseGeometry.del, BaseGeometry.blank, hc]
  · intro g hg
    unfold HeterogeneousGeometrySequence.getGeomItem at hg
    split at hg
    · cases hg
    · cases hg
      rename_i g0 hf
      refine ⟨rfl, ?_⟩
      cases hg0 : g0.geom <;> simp [BaseGeometry.del, hg0]

/-- C1 witness: the heterogeneous sequence over `testParent` yields at
index 0 a concrete non-owning child whose destruction releases nothing. -/
theorem childWrapper_non_owning_witness :
    ({ geom := some 10, parent := none, ndim := some 2, owned := true } :
      BaseGeometry).owned = true ∧
    (({ geom := some 10, parent := none, ndim := some 2, owned := true } :
      BaseGeometry).del).2 = [] :=
  (childWrapper_non_owning testEngine testSeq 0).2.2
    { geom := some 10, parent := none, ndim := some 2, owned := true } rfl

/-- C2 counterexample: on a wrapper with a null handle, geometryType fails
with the decorating guard's NullGeometryError, which is not in the
InvalidGeometryError class the claim names. -/
theorem geometryType_null_error_class :
    BaseGeometry.geometryType testEngine BaseGeometry.blank =
      .error NullGeometryError ∧
    NullGeometryError.isInvalidGeometryError = false :=
  ⟨rfl, rfl⟩

/-- C2 amended: on a wrapper with a null handle, the Operation-Table
delegations (area, length, buffer, union, the contains predicate,
equals_exact) fail with NullGeometryError — the null check living in the
spec-modelled table entries, since this layer delegates unguarded — and
geometryType, guarded by exceptNull, also fails with NullGeometryError
(not with an InvalidGeometryError). -/
theorem null_handle_ops_fail (lgeos : GEOSEngine) (g other : BaseGeometry)
    (h : g.geom = none) (distance : ℚ) (quadsegs : Nat) (tolerance : ℚ) :
    g.area lgeos = .error NullGeometryError ∧
    g.length lgeos = .error NullGeometryError ∧
    BaseGeometry.buffer lgeos g distance quadsegs = .error NullGeometryError ∧
    BaseGeometry.union lgeos g other = .error NullGeometryError ∧
    BaseGeometry.contains lgeos g other = .error NullGeometryError ∧
    BaseGeometry.equals_exact lgeos g other tolerance = .error NullGeometryError ∧
    BaseGeometry.geometryType lgeos g = .error NullGeometryError ∧
    NullGeometryError.isInvalidGeometryError = false := by
  refine ⟨?_, ?_, ?_, ?_, ?_, ?_, ?_, rfl⟩ <;>
    simp [BaseGeometry.area, BaseGeometry.length, BaseGeometry.buffer,
      BaseGeometry.union, BaseGeometry.contains, BaseGeometry.equals_exact,
      BaseGeometry.geometryType, impArea, impLength, impBuffer, impUnion,
      impContains, impEqualsExact, exceptNull, h, NullGeometryError]

/-- C2 witness: the amended theorem evaluated on a concrete blank wrapper
with concrete scalar arguments. -/
theorem null_handle_ops_fail_witness :
    BaseGeometry.blank.area testEngine = .error NullGeometryError :=
  (null_handle_ops_fail testEngine BaseGeometry.blank BaseGeometry.blank rfl
    1 16 1).1

/-- C4: whenever geom_factory succeeds on a non-null raw reference r, the
wrapper holds r, is owning (its destruction releases exactly [r]), has
dimensionality 2, carries exactly the given parent argument, and its
geometryType is the table name at the engine's reported tag for r. -/
theorem geom_factory_ok_spec (lgeos : GEOSEngine) (r : Nat) (p : Option Nat)
    (w : BaseGeometry) (h : geom_factory lgeos (some r) p = .ok w) :
    w.geom = some r ∧
    w.owned = false ∧
    (w.del).2 = [r] ∧
    w.ndim = some 2 ∧
    w.parent = p ∧
    BaseGeometry.geometryType lgeos w =
      pyListGet GEOMETRY_TYPES (lgeos.geomTypeId r) := by
  simp only [geom_factory] at h
  split at h
  · cases h
  · cases h
    refine ⟨rfl, rfl, rfl, rfl, rfl, ?_⟩
    simp [BaseGeometry.geometryType, exceptNull, geometry_type_name]

/-- C4 witness: the factory applied to reference 10 under `testEngine`
produces the expected owning Point wrapper. -/
theorem geom_factory_ok_spec_witness :
    (({ geom := some 10, parent := none, ndim := some 2, owned := false } :
      BaseGeometry).del).2 = [10] :=
  (geom_factory_ok_spec testEngine 10 none
    { geom := some 10, parent := none, ndim := some 2, owned := false }
    rfl).2.2.1

/-- C3: under `testEngine` the parent reference 7 has N = 2 children 10
and 11.  Indexed access at -1 passes the bounds check but hands the raw
index -1 (not the computed wraparound index ii = 1) to the engine child
lookup, yielding a wrapper with a null handle instead of child 11; access
at 1 yields child 11; out-of-range indices 3 and -3 do fail with the
IndexError.  This exhibits the source slip `return self._get_geom_item(i)`
where the computed `ii` is dead. -/
theorem getitem_negative_index_bug :
    (GeometrySequence.getitem testEngine testSeq (-1)).2 =
      .ok { geom := none, parent := none, ndim := none, owned := true } ∧
    (GeometrySequence.getitem testEngine testSeq 1).2 =
      .ok { geom := some 11, parent := none, ndim := none, owned := true } ∧
    ({ geom := none, parent := none, ndim := none, owned := true } :
        BaseGeometry) ≠
      { geom := some 11, parent := none, ndim := none, owned := true } ∧
    (GeometrySequence.getitem testEngine testSeq 3).2 =
      .error (.indexError "index out of range") ∧
    (GeometrySequence.getitem testEngine testSeq (-3)).2 =
      .error (.indexError "index out of range") :=
  ⟨rfl, rfl, by decide, rfl, rfl⟩

/-- C6 counterexample: under `negTagEngine` the engine reports type tag -1
(outside 0..7) for reference 1, yet geometry_type_name raises nothing and
returns the guessed name GeometryCollection via Python negative list
indexing. -/
theorem geometry_type_name_negative_tag_guess :
    negTagEngine.geomTypeId 1 = -1 ∧
    geometry_type_name negTagEngine (some 1) = .ok "GeometryCollection" :=
  ⟨rfl, rfl⟩

/-- C6 amended: for a non-null handle, a reported tag in 0..7 yields the
table entry at that position; a tag in -8..-1 wraps around Python-style
and yields the entry at tag + 8 (a guessed name, no failure); only tags
below -8 or at least 8 surface the unchecked IndexError. -/
theorem geometry_type_name_tag_cases (lgeos : GEOSEngine) (r : Nat) :
    ((0 ≤ lgeos.geomTypeId r ∧ lgeos.geomTypeId r < 8) →
      geometry_type_name lgeos (some r) =
        .ok (GEOMETRY_TYPES.getD (lgeos.geomTypeId r).toNat "")) ∧
    ((-8 ≤ lgeos.geomTypeId r ∧ lgeos.geomTypeId r < 0) →
      geometry_type_name lgeos (some r) =
        .ok (GEOMETRY_TYPES.getD (lgeos.geomTypeId r + 8).toNat "")) ∧
    ((lgeos.geomTypeId r < -8 ∨ 8 ≤ lgeos.geomTypeId r) →
      geometry_type_name lgeos (some r) =
        .error (.indexError "list index out of range")) := by
  refine ⟨?_, ?_, ?_⟩
  · rintro ⟨h0, h8⟩
    have hneg : ¬ lgeos.geomTypeId r < 0 := by omega
    simp [geometry_type_name, pyListGet, GEOMETRY_TYPES, hneg, h0, h8]
  · rintro ⟨hlo, hhi⟩
    simp [geometry_type_name, pyListGet, GEOMETRY_TYPES, hlo, hhi]
    omega
  · intro hout
    simp [geometry_type_name, pyListGet, GEOMETRY_TYPES]
    omega

/-- C6 witness: the amended theorem applied under `negTagEngine`, whose
reported tag -1 wraps to table position 7. -/
theorem geometry_type_name_tag_cases_witness :
    geometry_type_name negTagEngine (some 1) =
      .ok (GEOMETRY_TYPES.getD ((negTagEngine.geomTypeId 1) + 8).toNat "") :=
  (geometry_type_name_tag_cases negTagEngine 1).2.1 (by constructor <;> decide)

/-- C10: when the engine reports a null child reference at an index, the
heterogeneous sequence's item retrieval fails (geom_factory rejects the
null) while the homogeneous sequence's item retrieval succeeds and
returns a non-owning wrapper whose handle is null. -/
theorem sequence_variants_null_child (lgeos : GEOSEngine)
    (s : GeometrySequence) (i : Int)
    (h : lgeos.getGeometryN s.geomCache i = none) :
    HeterogeneousGeometrySequence.getGeomItem lgeos s i =
      .error (.valueError "No Shapely geometry can be created from null value") ∧
    GeometrySequence.getGeomItem lgeos s i =
      { geom := none, parent := none, ndim := none, owned := true } := by
  constructor
  · unfold HeterogeneousGeometrySequence.getGeomItem
    rw [h]
    rfl
  · unfold GeometrySequence.getGeomItem
    rw [h]
    rfl

/-- C10 witness: under `testEngine` index 5 of reference 7 has no child,
so the heterogeneous retrieval fails with the factory's error. -/
theorem sequence_variants_null_child_witness :
    HeterogeneousGeometrySequence.getGeomItem testEngine testSeq 5 =
      .error (.valueError "No Shapely geometry can be created from null value") :=
  (sequence_variants_null_child testEngine testSeq 5 rfl).1

end Shapely
